import Mathlib

/-!
Shallow embedding of the Automation Desk memory monitoring tool:
the sampler (memory_monitor.py), the monitoring loop of the UI
(memory_monitor_ui.py, MemoryMonitorApp.run_monitoring and
MemoryMonitorApp.save_settings), and the Outlook alert dispatcher
(alert_system.py, send_outlook_alert).  Python floats are modelled
as rationals; a fallible attribute read is modelled as Except.
-/

deriving instance DecidableEq for Except

namespace MemMon

/-- One row of the Win32_Process table.  Reading a metric attribute
(the expression float(process.VirtualSize or 0), including the None
default) either yields a byte count or raises, which Except models. -/
structure ProcEntry where
  Name : String
  VirtualSize : Except String ℚ
  WorkingSetSize : Except String ℚ
deriving DecidableEq

/-- The tuple returned by memory_monitor(): (found, vm_mb, ws_mb,
memory_percentage). -/
structure Sample where
  found : Bool
  vmMb : ℚ
  wsMb : ℚ
  memoryPercentage : ℚ
deriving DecidableEq

/-- Python str.lower() on the ASCII names involved. -/
def pyLower (s : String) : String := ⟨s.data.map Char.toLower⟩

/-- The characters Python str.strip() removes. -/
def isPySpace (c : Char) : Bool :=
  c = ' ' ∨ c = '\t' ∨ c = '\n' ∨ c = '\r' ∨ c = '\x0b' ∨ c = '\x0c'

/-- Python str.strip() with no argument: drop whitespace at both ends. -/
def pyStrip (s : String) : String :=
  ⟨((s.data.dropWhile isPySpace).reverse.dropWhile isPySpace).reverse⟩

/-- Python str.split on a one-character separator: "a;;b" gives
["a", "", "b"] and "" gives [""]. -/
def pySplitChar (sep : Char) : List Char → List (List Char)
  | [] => [[]]
  | c :: rest =>
    match pySplitChar sep rest with
    | [] => [[]]
    | h :: t => if c = sep then [] :: h :: t else (c :: h) :: t

/-- Python s.split(";") on a String. -/
def pySplitSemi (s : String) : List String :=
  (pySplitChar ';' s.data).map (fun l => String.mk l)

/-- The hard-coded target process name of memory_monitor.py. -/
def targetName : String := "AutomationDesk.exe"

/-- The fixed total-memory assumption of memory_monitor.py (4096 MB). -/
def totalMemory : ℚ := 4096

/-- The loop body of memory_monitor(): walk the process table, and on
the first case-insensitive name match read the two metric attributes,
convert to MB and derive the percentage, then break.  The Bool is
whether the except branch logged an error.  The flag found is set
before the metric reads, so a raise during those reads escapes with
found already true and the metric variables still at their zero
initial values (the MB conversions are assigned only after both byte
reads succeed). -/
def mmScan : List ProcEntry → Sample × Bool
  | [] => (⟨false, 0, 0, 0⟩, false)
  | p :: rest =>
    if pyLower p.Name = pyLower targetName then
      match p.VirtualSize, p.WorkingSetSize with
      | Except.ok vsBytes, Except.ok wsBytes =>
        let vmMb := vsBytes / (1024 * 1024)
        let wsMb := wsBytes / (1024 * 1024)
        (⟨true, vmMb, wsMb, vmMb / totalMemory * 100⟩, false)
      | _, _ => (⟨true, 0, 0, 0⟩, true)
    else mmScan rest

/-- memory_monitor() of memory_monitor.py.  The argument is the
outcome of the WMI query c.Win32_Process(): either the process rows
or a raised error; a raised query is caught by the surrounding
try/except, logged, and the zero-initialised tuple is returned. -/
def memory_monitor (query : Except String (List ProcEntry)) : Sample × Bool :=
  match query with
  | Except.error _ => (⟨false, 0, 0, 0⟩, true)
  | Except.ok procs => mmScan procs

/-- The arguments of one call of send_outlook_alert as issued by the
monitoring loop: the event handed from the engine to the dispatcher. -/
structure AlertCall where
  processName : String
  vmMb : ℚ
  wsMb : ℚ
  memoryPercentage : ℚ
  recipients : List String
  crashDetected : Bool
deriving DecidableEq

/-- The hysteresis condition of run_monitoring:
self.last_alert_memory is None or
memory_percentage >= self.last_alert_memory + 5. -/
def shouldFire (lastAlertMemory : Option ℚ) (pct : ℚ) : Bool :=
  match lastAlertMemory with
  | none => true
  | some w => w + 5 ≤ pct

/-- One iteration of the while loop of
MemoryMonitorApp.run_monitoring, given the current threshold, the
saved email list, the current self.last_alert_memory and the sample
returned by memory_monitor().  Returns the new self.last_alert_memory
and the send_outlook_alert call issued on this tick, if any. -/
def runTick (threshold : ℚ) (emails : List String) (lastAlertMemory : Option ℚ)
    (s : Sample) : Option ℚ × Option AlertCall :=
  if s.found then
    if threshold ≤ s.memoryPercentage then
      if shouldFire lastAlertMemory s.memoryPercentage then
        if emails ≠ [] then
          (some s.memoryPercentage,
           some ⟨"AutomationDesk.exe", s.vmMb, s.wsMb, s.memoryPercentage,
                 emails, false⟩)
        else (lastAlertMemory, none)
      else (lastAlertMemory, none)
    else (lastAlertMemory, none)
  else
    if emails ≠ [] then
      (lastAlertMemory, some ⟨"AutomationDesk.exe (CRASHED)", 0, 0, 0, emails, true⟩)
    else (lastAlertMemory, none)

/-- Whether this iteration logs the no-recipients skip message
(either of the two log_message skip lines of run_monitoring). -/
def runTickSkipLogged (threshold : ℚ) (emails : List String)
    (lastAlertMemory : Option ℚ) (s : Sample) : Bool :=
  if s.found then
    if threshold ≤ s.memoryPercentage then
      if shouldFire lastAlertMemory s.memoryPercentage then
        emails = []
      else false
    else false
  else emails = []

/-- Iterating run_monitoring over a list of samples, collecting the
per-tick alert calls. -/
def runSeq (threshold : ℚ) (emails : List String) :
    Option ℚ → List Sample → List (Option AlertCall)
  | _, [] => []
  | st, s :: rest =>
    let r := runTick threshold emails st s
    r.2 :: runSeq threshold emails r.1 rest

/-- Final self.last_alert_memory after iterating over a sample list. -/
def runSeqState (threshold : ℚ) (emails : List String) :
    Option ℚ → List Sample → Option ℚ
  | st, [] => st
  | st, s :: rest => runSeqState threshold emails (runTick threshold emails st s).1 rest

/-- Observable outcome of one send_outlook_alert call in
alert_system.py: whether the empty-recipient skip was logged (at info
level), whether the Outlook COM object was created, the subject the
mail was given, whether mail.Send() ran, and whether log_alert ran. -/
structure DeliveryOutcome where
  skipLoggedInfo : Bool
  outlookInvoked : Bool
  subject : Option String
  sendCalled : Bool
  alertLogged : Bool
deriving DecidableEq

set_option linter.unusedVariables false in
/-- send_outlook_alert of alert_system.py.  With no recipients it
logs at info level and returns before any Outlook interaction.
Otherwise it creates the mail and sets a variant-specific subject and
body; the statements mail.Send() and log_alert(...) are indented
inside the high-memory else branch, so they execute only when
crash_detected is false. -/
def send_outlook_alert (processName : String) (vmMb wsMb memoryPercentage : ℚ)
    (customRecipients : List String) (crashDetected : Bool) : DeliveryOutcome :=
  if customRecipients = [] then
    ⟨true, false, none, false, false⟩
  else
    if crashDetected then
      ⟨false, true, some ("[ALERT] Process Crash: " ++ processName), false, false⟩
    else
      ⟨false, true, some ("[ALERT] High Memory Usage Alert: " ++ processName),
       true, true⟩

/-- The recipient parsing of MemoryMonitorApp.save_settings:
strip the entry text; if non-empty, split on semicolons, strip each
piece and keep the non-blank ones; else the empty list. -/
def parse_emails (raw : String) : List String :=
  let email_str := pyStrip raw
  if email_str ≠ "" then
    ((pySplitSemi email_str).map pyStrip).filter (fun e => e ≠ "")
  else []

/-- A found sample with the given usage percentage (vm and ws zero,
which run_monitoring never reads for the hysteresis decision). -/
def mkS (u : ℚ) : Sample := ⟨true, 0, 0, u⟩

/-- An absent sample, as memory_monitor returns when no row matches. -/
def absentS : Sample := ⟨false, 0, 0, 0⟩

/-- The high-memory alert call produced on a sample mkS u. -/
def hmEvent (emails : List String) (u : ℚ) : AlertCall :=
  ⟨"AutomationDesk.exe", 0, 0, u, emails, false⟩

/-- The crash alert call, identical on every absent tick. -/
def crashEvent (emails : List String) : AlertCall :=
  ⟨"AutomationDesk.exe (CRASHED)", 0, 0, 0, emails, true⟩

/-- Scenario A of the spec: usage 50, 72, 74, 77, 60, 73, all found. -/
def samplesA : List Sample := [mkS 50, mkS 72, mkS 74, mkS 77, mkS 60, mkS 73]

/-- Scenario B of the spec: found true, true, false, false, true with
stable low usage. -/
def samplesB : List Sample := [mkS 30, mkS 30, absentS, absentS, mkS 30]

/-- A one-element recipient list used in concrete scenarios. -/
def opsR : List String := ["ops@example.com"]

/- Helper lemmas about single ticks of run_monitoring. -/

theorem runTick_found_below (th : ℚ) (emails : List String) (st : Option ℚ)
    (s : Sample) (hf : s.found = true) (hlt : s.memoryPercentage < th) :
    runTick th emails st s = (st, none) := by
  simp [runTick, hf, hlt.not_le]

theorem runTick_absent (th : ℚ) (emails : List String) (st : Option ℚ)
    (s : Sample) (hem : emails ≠ []) (hf : s.found = false) :
    runTick th emails st s = (st, some (crashEvent emails)) := by
  simp [runTick, hf, hem, crashEvent]

theorem runTick_fire_none (th : ℚ) (emails : List String) (s : Sample)
    (hem : emails ≠ []) (hf : s.found = true) (hth : th ≤ s.memoryPercentage) :
    runTick th emails none s =
      (some s.memoryPercentage,
       some ⟨"AutomationDesk.exe", s.vmMb, s.wsMb, s.memoryPercentage, emails, false⟩) := by
  simp [runTick, hf, hth, shouldFire, hem]

theorem runTick_fire_some (th : ℚ) (emails : List String) (s : Sample) (w : ℚ)
    (hem : emails ≠ []) (hf : s.found = true) (hth : th ≤ s.memoryPercentage)
    (h5 : w + 5 ≤ s.memoryPercentage) :
    runTick th emails (some w) s =
      (some s.memoryPercentage,
       some ⟨"AutomationDesk.exe", s.vmMb, s.wsMb, s.memoryPercentage, emails, false⟩) := by
  have hfire : shouldFire (some w) s.memoryPercentage = true := by
    simp [shouldFire, h5]
  simp [runTick, hf, hth, hfire, hem]

theorem runTick_nofire (th : ℚ) (emails : List String) (s : Sample) (w : ℚ)
    (hf : s.found = true) (hth : th ≤ s.memoryPercentage)
    (h5 : ¬ w + 5 ≤ s.memoryPercentage) :
    runTick th emails (some w) s = (some w, none) := by
  have hfire : shouldFire (some w) s.memoryPercentage = false := by
    simp [shouldFire, h5]
  simp [runTick, hf, hth, hfire]

/-- Once the watermark is set, one tick can only keep it or raise it:
the code has no branch that writes none back or a smaller value. -/
theorem runTick_watermark_mono (th : ℚ) (emails : List String) (s : Sample) (w : ℚ) :
    ∃ w2, (runTick th emails (some w) s).1 = some w2 ∧ w ≤ w2 := by
  by_cases hf : s.found = true
  · by_cases hth : th ≤ s.memoryPercentage
    · by_cases h5 : w + 5 ≤ s.memoryPercentage
      · by_cases hem : emails = []
        · refine ⟨w, ?_, le_refl w⟩
          have hfire : shouldFire (some w) s.memoryPercentage = true := by
            simp [shouldFire, h5]
          simp [runTick, hf, hth, hfire, hem]
        · refine ⟨s.memoryPercentage, ?_, ?_⟩
          · rw [runTick_fire_some th emails s w hem hf hth h5]
          · linarith
      · exact ⟨w, by rw [runTick_nofire th emails s w hf hth h5], le_refl w⟩
    · refine ⟨w, ?_, le_refl w⟩
      have hlt : s.memoryPercentage < th := lt_of_not_le hth
      rw [runTick_found_below th emails (some w) s hf hlt]
  · have hf2 : s.found = false := by
      cases hfound : s.found
      · rfl
      · exact absurd hfound hf
    refine ⟨w, ?_, le_refl w⟩
    by_cases hem : emails = []
    · simp [runTick, hf2, hem]
    · rw [runTick_absent th emails (some w) s hem hf2]

/- Helper lemmas about sequences of ticks. -/

theorem runSeq_append (th : ℚ) (emails : List String) (st : Option ℚ)
    (l1 l2 : List Sample) :
    runSeq th emails st (l1 ++ l2) =
      runSeq th emails st l1 ++
        runSeq th emails (runSeqState th emails st l1) l2 := by
  induction l1 generalizing st with
  | nil => simp [runSeq, runSeqState]
  | cons s rest ih => simp [runSeq, runSeqState, ih]

theorem runSeq_below (th : ℚ) (emails : List String) (vs : List ℚ)
    (h : ∀ v ∈ vs, v < th) :
    runSeq th emails none (vs.map mkS) = vs.map (fun _ => none) ∧
    runSeqState th emails none (vs.map mkS) = none := by
  induction vs with
  | nil => simp [runSeq, runSeqState]
  | cons v rest ih =>
    have hv : v < th := h v (List.mem_cons_self _ _)
    have ht : runTick th emails none (mkS v) = (none, none) :=
      runTick_found_below th emails none (mkS v) rfl hv
    have ihr := ih (fun x hx => h x (List.mem_cons_of_mem _ hx))
    refine ⟨?_, ?_⟩
    · simp [runSeq, ht, ihr.1]
    · simp [runSeqState, ht, ihr.2]

theorem runTick_hold (th : ℚ) (emails : List String) (u v : ℚ) (h : v < u + 5) :
    runTick th emails (some u) (mkS v) = (some u, none) := by
  by_cases hth : th ≤ v
  · exact runTick_nofire th emails (mkS v) u rfl hth h.not_le
  · exact runTick_found_below th emails (some u) (mkS v) rfl (lt_of_not_le hth)

theorem runSeq_hold (th : ℚ) (emails : List String) (u : ℚ) (vs : List ℚ)
    (h : ∀ v ∈ vs, v < u + 5) :
    runSeq th emails (some u) (vs.map mkS) = vs.map (fun _ => none) := by
  induction vs with
  | nil => simp [runSeq]
  | cons v rest ih =>
    have hv : v < u + 5 := h v (List.mem_cons_self _ _)
    have ihr := ih (fun x hx => h x (List.mem_cons_of_mem _ hx))
    simp [runSeq, runTick_hold th emails u v hv, ihr]

theorem countP_isSome_map_none (vs : List ℚ) :
    ((vs.map (fun _ => (none : Option AlertCall))).countP Option.isSome) = 0 := by
  induction vs with
  | nil => simp
  | cons v rest ih => simp [ih]

theorem countP_isSome_replicate_none (n : Nat) :
    ((List.replicate n (none : Option AlertCall)).countP Option.isSome) = 0 := by
  induction n with
  | zero => simp
  | succ k ih => simp [List.replicate_succ, ih]

/-- Claim C1 counterexample: with threshold 70 and recipients
configured, the usage sequence 50, 72, 74, 77, 60, 73 does not
produce the event list the claim predicts (HighMemory at 72, 77 and
73), and after the dip to 60 the watermark still holds 77 instead of
having been reset to none. -/
theorem C1_counterexample :
    runSeq 70 opsR none samplesA ≠
      [none, some (hmEvent opsR 72), none, some (hmEvent opsR 77), none,
       some (hmEvent opsR 73)] ∧
    runSeqState 70 opsR none [mkS 50, mkS 72, mkS 74, mkS 77, mkS 60] = some 77 := by
  constructor
  · norm_num [runSeq, runTick, shouldFire, mkS, samplesA, opsR, hmEvent]
    exact fun h => Option.noConfusion h
  · norm_num [runSeqState, runTick, shouldFire, mkS, opsR]

/-- Claim C1 (amended): the watermark, once set, is never reset to
none and never decreases while the loop runs; a sample below the
threshold leaves it unchanged rather than resetting it, so a
re-crossing fires only after a further climb of at least the step.
On the sequence 50, 72, 74, 77, 60, 73 with threshold 70 the loop
emits HighMemory at 72 and 77 only. -/
theorem C1_watermark_behavior :
    runSeq 70 opsR none samplesA =
      [none, some (hmEvent opsR 72), none, some (hmEvent opsR 77), none, none] ∧
    (∀ th emails s w, ∃ w2, (runTick th emails (some w) s).1 = some w2 ∧ w ≤ w2) := by
  constructor
  · norm_num [runSeq, runTick, shouldFire, mkS, samplesA, opsR, hmEvent]
  · intro th emails s w
    exact runTick_watermark_mono th emails s w

/-- Claim C2 counterexample: the found sequence true, true, false,
false, true with recipients configured yields a Crash alert on both
absent ticks, not only on the first: the fourth tick also dispatches
a crash alert, so the event list of the claim is wrong. -/
theorem C2_counterexample :
    runSeq 70 opsR none samplesB ≠
      [none, none, some (crashEvent opsR), none, none] ∧
    (runSeq 70 opsR none samplesB)[3]? = some (some (crashEvent opsR)) := by
  constructor
  · norm_num [runSeq, runTick, shouldFire, mkS, absentS, samplesB, opsR, crashEvent]
    exact fun h => Option.noConfusion h
  · norm_num [runSeq, runTick, shouldFire, mkS, absentS, samplesB, opsR, crashEvent]

/-- Claim C2 (amended): crash alerting is level-triggered, not
edge-triggered: every tick whose sample has found = false dispatches
a crash alert whenever recipients are configured (the code keeps no
presence state at all), so the found sequence true, true, false,
false, true yields a Crash alert on each of the two absent ticks. -/
theorem C2_crash_every_absent_tick :
    (∀ th emails st s, emails ≠ [] → s.found = false →
      runTick th emails st s = (st, some (crashEvent emails))) ∧
    runSeq 70 opsR none samplesB =
      [none, none, some (crashEvent opsR), some (crashEvent opsR), none] := by
  constructor
  · intro th emails st s hem hf
    exact runTick_absent th emails st s hem hf
  · norm_num [runSeq, runTick, shouldFire, mkS, absentS, samplesB, opsR, crashEvent]

/-- Witness for the amended claim C2 at a concrete tick. -/
theorem C2_crash_every_absent_tick_witness :
    runTick 70 opsR none absentS = (none, some (crashEvent opsR)) :=
  C2_crash_every_absent_tick.1 70 opsR none absentS (by simp [opsR]) rfl

/-- Claim C3 (code bug): for a Crash event with a non-empty recipient
list, send_outlook_alert renders the crash subject and creates the
mail, but never reaches mail.Send() or log_alert, because those two
statements are indented inside the high-memory else branch of
alert_system.py; the high-memory variant with the same recipients
does send and does log its summary line. -/
theorem C3_crash_send_unreachable :
    (send_outlook_alert "AutomationDesk.exe (CRASHED)" 0 0 0
      ["user1@example.com"] true).subject =
      some "[ALERT] Process Crash: AutomationDesk.exe (CRASHED)" ∧
    (send_outlook_alert "AutomationDesk.exe (CRASHED)" 0 0 0
      ["user1@example.com"] true).outlookInvoked = true ∧
    (send_outlook_alert "AutomationDesk.exe (CRASHED)" 0 0 0
      ["user1@example.com"] true).sendCalled = false ∧
    (send_outlook_alert "AutomationDesk.exe (CRASHED)" 0 0 0
      ["user1@example.com"] true).alertLogged = false ∧
    (send_outlook_alert "AutomationDesk.exe" 2048 256 50
      ["user1@example.com"] false).sendCalled = true ∧
    (send_outlook_alert "AutomationDesk.exe" 2048 256 50
      ["user1@example.com"] false).alertLogged = true := by
  exact ⟨rfl, rfl, rfl, rfl, rfl, rfl⟩

/-- Claim C4: on a found sample at or above the threshold and with
recipients configured, a HighMemory alert is dispatched iff the
watermark is none or the usage has reached watermark plus the
hard-coded step 5; on dispatch the watermark becomes the current
usage; consequently a run that crosses the threshold once and stays
above it without growing by the step dispatches exactly one
HighMemory alert. -/
theorem C4_hysteresis_policy (th : ℚ) (emails : List String) (st : Option ℚ)
    (s : Sample) (below : List ℚ) (u : ℚ) (rest : List ℚ)
    (hem : emails ≠ []) (hf : s.found = true) (hth : th ≤ s.memoryPercentage)
    (hb : ∀ v ∈ below, v < th) (hu : th ≤ u) (hr : ∀ v ∈ rest, v < u + 5) :
    ((runTick th emails st s).2.isSome ↔
      st = none ∨ ∃ w, st = some w ∧ w + 5 ≤ s.memoryPercentage) ∧
    ((runTick th emails st s).2.isSome = true →
      (runTick th emails st s).1 = some s.memoryPercentage) ∧
    (runSeq th emails none ((below ++ u :: rest).map mkS)).countP Option.isSome = 1 := by
  refine ⟨?_, ?_, ?_⟩
  · cases st with
    | none =>
      rw [runTick_fire_none th emails s hem hf hth]
      simp
    | some w =>
      by_cases h5 : w + 5 ≤ s.memoryPercentage
      · rw [runTick_fire_some th emails s w hem hf hth h5]
        simp [h5]
      · rw [runTick_nofire th emails s w hf hth h5]
        simp [h5]
  · intro hsome
    cases st with
    | none => rw [runTick_fire_none th emails s hem hf hth]
    | some w =>
      by_cases h5 : w + 5 ≤ s.memoryPercentage
      · rw [runTick_fire_some th emails s w hem hf hth h5]
      · rw [runTick_nofire th emails s w hf hth h5] at hsome
        simp at hsome
  · have hmap : (below ++ u :: rest).map mkS =
        below.map mkS ++ (mkS u :: rest.map mkS) := by simp
    have hfire := runTick_fire_none th emails (mkS u) hem rfl hu
    simp only [mkS] at hfire
    rw [hmap, runSeq_append, (runSeq_below th emails below hb).2]
    simp [runSeq, hfire, mkS, runSeq_hold th emails u rest hr,
      List.countP_append, countP_isSome_map_none, countP_isSome_replicate_none,
      (runSeq_below th emails below hb).1]

/-- Witness for claim C4: threshold 70, recipients configured, usage
run 50 below the threshold then 72, 74, 76 above it without a climb
of 5 from 72 fires exactly once. -/
theorem C4_hysteresis_policy_witness :
    (runSeq 70 opsR none (([50] ++ 72 :: [74, 76]).map mkS)).countP Option.isSome = 1 :=
  (C4_hysteresis_policy 70 opsR (some 60) (mkS 72) [50] 72 [74, 76]
    (by simp [opsR]) rfl (by norm_num [mkS])
    (by intro v hv; fin_cases hv; norm_num) (by norm_num)
    (by intro v hv; fin_cases hv <;> norm_num)).2.2

/-- Claim C5: with an empty recipient list no notifier interaction
ever happens: send_outlook_alert returns after logging the skip at
info level, without creating the Outlook object, for both event
variants, and the monitoring loop itself dispatches no alert call of
either kind, logging its own skip line on the ticks that would have
alerted. -/
theorem C5_empty_recipients_skip :
    (∀ name vm ws pct crash, send_outlook_alert name vm ws pct [] crash =
      ⟨true, false, none, false, false⟩) ∧
    (∀ th st s, (runTick th [] st s).2 = none) ∧
    (∀ th st s, s.found = false → runTickSkipLogged th [] st s = true) := by
  refine ⟨?_, ?_, ?_⟩
  · intro name vm ws pct crash
    simp [send_outlook_alert]
  · intro th st s
    by_cases hf : s.found = true
    · by_cases hth : th ≤ s.memoryPercentage
      · by_cases hfire : shouldFire st s.memoryPercentage = true
        · simp [runTick, hf, hth, hfire]
        · simp [runTick, hf, hth, hfire]
      · simp [runTick, hf, hth]
    · simp [runTick, hf]
  · intro th st s hf
    simp [runTickSkipLogged, hf]

/-- Witness for claim C5: the third conjunct at a concrete absent
tick. -/
theorem C5_empty_recipients_skip_witness :
    runTickSkipLogged 70 [] none absentS = true :=
  C5_empty_recipients_skip.2.2 70 none absentS rfl

/-- Claim C6 counterexample: with an empty recipient list a found
sample at usage 80 against threshold 70 leaves the watermark at none,
whereas with a recipient configured the same tick sets it to 80: the
watermark update is skipped along with the delivery. -/
theorem C6_counterexample :
    (runTick 70 [] none (mkS 80)).1 = none ∧
    (runTick 70 opsR none (mkS 80)).1 = some 80 := by
  constructor
  · norm_num [runTick, shouldFire, mkS]
  · norm_num [runTick, shouldFire, mkS, opsR]

/-- Claim C6 (amended): with an empty recipient list a tick changes
nothing at all: the assignment to the watermark sits inside the
recipient check, so runTick returns the state unchanged and
dispatches nothing; the engine state update therefore does depend on
whether recipients are configured. -/
theorem C6_empty_recipients_state :
    ∀ th st s, runTick th [] st s = (st, none) := by
  intro th st s
  by_cases hf : s.found = true
  · by_cases hth : th ≤ s.memoryPercentage
    · by_cases hfire : shouldFire st s.memoryPercentage = true
      · simp [runTick, hf, hth, hfire]
      · simp [runTick, hf, hth, hfire]
    · simp [runTick, hf, hth]
  · simp [runTick, hf]

/- Helper lemmas about the sampler scan. -/

theorem mmScan_skip (pre l : List ProcEntry)
    (hpre : ∀ q ∈ pre, pyLower q.Name ≠ pyLower targetName) :
    mmScan (pre ++ l) = mmScan l := by
  induction pre with
  | nil => simp
  | cons q rest ih =>
    have hq := hpre q (List.mem_cons_self _ _)
    simp [mmScan, hq, ih (fun x hx => hpre x (List.mem_cons_of_mem _ hx))]

theorem mmScan_match_head (p : ProcEntry) (post : List ProcEntry)
    (hp : pyLower p.Name = pyLower targetName) :
    mmScan (p :: post) = mmScan [p] := by
  cases hvs : p.VirtualSize with
  | error e1 =>
    cases hws : p.WorkingSetSize with
    | error e2 => simp [mmScan, hp, hvs, hws]
    | ok v2 => simp [mmScan, hp, hvs, hws]
  | ok v1 =>
    cases hws : p.WorkingSetSize with
    | error e2 => simp [mmScan, hp, hvs, hws]
    | ok v2 => simp [mmScan, hp, hvs, hws]

/-- A matching process row whose VirtualSize read raises mid-query. -/
def badProc : ProcEntry :=
  ⟨"AutomationDesk.exe", Except.error "COM read failed", Except.ok 0⟩

/-- Claim C7 counterexample: when the enumeration reaches a matching
row and the VirtualSize read then raises, memory_monitor returns
found = true with zero metrics, not found = false: the found flag is
assigned before the fallible metric reads. -/
theorem C7_counterexample :
    (memory_monitor (Except.ok [badProc])).1.found = true ∧
    memory_monitor (Except.ok [badProc]) = (⟨true, 0, 0, 0⟩, true) := by
  constructor
  · simp [memory_monitor, mmScan, badProc, targetName]
  · simp [memory_monitor, mmScan, badProc, targetName]

/-- Claim C7 (amended): the sampler never raises past its boundary,
and an error in the query itself, or anywhere before a name match,
yields found = false with zero metrics and a logged error; but an
error while reading the metrics of an already matched row yields
found = true with zero metrics, the error still logged and not
propagated. -/
theorem C7_sampler_error_behavior :
    (∀ e, memory_monitor (Except.error e) = (⟨false, 0, 0, 0⟩, true)) ∧
    (∀ pre p post,
      (∀ q ∈ pre, pyLower q.Name ≠ pyLower targetName) →
      pyLower p.Name = pyLower targetName →
      ((∃ e, p.VirtualSize = Except.error e) ∨
       (∃ e, p.WorkingSetSize = Except.error e)) →
      memory_monitor (Except.ok (pre ++ p :: post)) = (⟨true, 0, 0, 0⟩, true)) := by
  constructor
  · intro e
    rfl
  · intro pre p post hpre hp herr
    have hbase : mmScan (p :: post) = (⟨true, 0, 0, 0⟩, true) := by
      cases hvs : p.VirtualSize with
      | error e1 =>
        cases hws : p.WorkingSetSize with
        | error e2 => simp [mmScan, hp, hvs, hws]
        | ok v2 => simp [mmScan, hp, hvs, hws]
      | ok v1 =>
        cases hws : p.WorkingSetSize with
        | error e2 => simp [mmScan, hp, hvs, hws]
        | ok v2 =>
          exfalso
          rcases herr with ⟨e, he⟩ | ⟨e, he⟩
          · rw [he] at hvs
            exact Except.noConfusion hvs
          · rw [he] at hws
            exact Except.noConfusion hws
    show mmScan (pre ++ p :: post) = (⟨true, 0, 0, 0⟩, true)
    rw [mmScan_skip pre _ hpre, hbase]

/-- Witness for claim C7 at the concrete failing row. -/
theorem C7_sampler_error_behavior_witness :
    memory_monitor (Except.ok [badProc]) = (⟨true, 0, 0, 0⟩, true) :=
  C7_sampler_error_behavior.2 [] badProc [] (by simp) rfl
    (Or.inl ⟨"COM read failed", rfl⟩)

/-- Claim C8: the reported percentage always equals the reported
virtual MB divided by the fixed 4096 MB total-memory assumption and
multiplied by 100, recomputed inside the same memory_monitor call. -/
theorem C8_percentage_formula :
    ∀ q, (memory_monitor q).1.memoryPercentage =
      (memory_monitor q).1.vmMb / 4096 * 100 := by
  intro q
  cases q with
  | error e => norm_num [memory_monitor]
  | ok procs =>
    induction procs with
    | nil => norm_num [memory_monitor, mmScan]
    | cons p rest ih =>
      by_cases hname : pyLower p.Name = pyLower targetName
      · cases hvs : p.VirtualSize with
        | error e1 =>
          cases hws : p.WorkingSetSize with
          | error e2 => norm_num [memory_monitor, mmScan, hname, hvs, hws]
          | ok v2 => norm_num [memory_monitor, mmScan, hname, hvs, hws]
        | ok v1 =>
          cases hws : p.WorkingSetSize with
          | error e2 => norm_num [memory_monitor, mmScan, hname, hvs, hws]
          | ok v2 => simp [memory_monitor, mmScan, hname, hvs, hws, totalMemory]
      · simpa [memory_monitor, mmScan, hname] using ih

/-- Claim C9 counterexample: the input a@x;a@x parses to the address
twice over: duplicates are kept, so the parsed list is not
duplicate-free. -/
theorem C9_counterexample :
    parse_emails "a@x;a@x" = ["a@x", "a@x"] ∧
    ¬ (parse_emails "a@x;a@x").Nodup := by
  constructor
  · decide
  · decide

/-- Claim C9 (amended): parsing splits on semicolons, strips each
entry and drops blank entries, preserving order, but does not remove
duplicates: every parsed entry is non-blank, while a repeated address
stays repeated. -/
theorem C9_no_blank_entries :
    (∀ raw e, e ∈ parse_emails raw → e ≠ "") ∧
    parse_emails "a@x; ;a@x" = ["a@x", "a@x"] := by
  constructor
  · intro raw e he
    simp only [parse_emails] at he
    split at he
    · exact of_decide_eq_true (List.mem_filter.mp he).2
    · exact absurd he (List.not_mem_nil e)
  · decide

/-- Witness for claim C9 at a concrete parsed entry. -/
theorem C9_no_blank_entries_witness : "a@x" ≠ "" :=
  C9_no_blank_entries.1 "a@x; ;a@x" "a@x" (by decide)

/-- Claim C10: when several running rows match the target name
case-insensitively, the sampler reports the metrics of the first
match in enumeration order only: the result is unchanged if the later
rows are removed, and it carries exactly the metrics of that first
match when its reads succeed. -/
theorem C10_first_match_only (pre : List ProcEntry) (p : ProcEntry)
    (post : List ProcEntry)
    (hpre : ∀ q ∈ pre, pyLower q.Name ≠ pyLower targetName)
    (hp : pyLower p.Name = pyLower targetName) :
    memory_monitor (Except.ok (pre ++ p :: post)) =
      memory_monitor (Except.ok (pre ++ [p])) ∧
    (∀ vs ws, p.VirtualSize = Except.ok vs → p.WorkingSetSize = Except.ok ws →
      memory_monitor (Except.ok (pre ++ p :: post)) =
        (⟨true, vs / (1024 * 1024), ws / (1024 * 1024),
          vs / (1024 * 1024) / totalMemory * 100⟩, false)) := by
  constructor
  · show mmScan (pre ++ p :: post) = mmScan (pre ++ [p])
    rw [mmScan_skip pre _ hpre, mmScan_skip pre _ hpre, mmScan_match_head p post hp]
  · intro vs ws hvs hws
    show mmScan (pre ++ p :: post) =
      (⟨true, vs / (1024 * 1024), ws / (1024 * 1024),
        vs / (1024 * 1024) / totalMemory * 100⟩, false)
    rw [mmScan_skip pre _ hpre]
    simp [mmScan, hp, hvs, hws]

/-- A non-matching process row. -/
def chromeProc : ProcEntry := ⟨"chrome.exe", Except.ok 0, Except.ok 0⟩

/-- The first matching row of the witness, with a differently cased
name. -/
def adProc : ProcEntry :=
  ⟨"automationdesk.EXE", Except.ok 1073741824, Except.ok 536870912⟩

/-- A second matching row whose metrics must be ignored. -/
def adProc2 : ProcEntry := ⟨"AutomationDesk.exe", Except.ok 999, Except.ok 999⟩

/-- Witness for claim C10: dropping the second matching row does not
change the result. -/
theorem C10_first_match_only_witness :
    memory_monitor (Except.ok [chromeProc, adProc, adProc2]) =
      memory_monitor (Except.ok [chromeProc, adProc]) :=
  (C10_first_match_only [chromeProc] adProc [adProc2]
    (by intro q hq; simp at hq; subst hq; decide) (by decide)).1

end MemMon
